import Mathlib

/-!
Verification of the reliability-composition layer of go-grpc-template:
the idempotency gate, the retry executor, the circuit breaker, the
unit-of-work repository memoization, and the user service orchestration.

Pure Go functions are embedded as Lean functions; the effects a function
performs through its collaborators (record store reads/writes, the wrapped
business function, serialization) are passed in as explicit outcome values,
and the embedding returns both the function result and an account of the
effects it performed (records inserted, number of invocations of the
wrapped function).  Errors are modelled as strings, `Except Err` plays the
role of Go's `(value, error)` pairs, and timestamps are naturals.
-/

deriving instance DecidableEq for Except

namespace GrpcTemplate

/-- Go `error` values, modelled by their message. -/
abbrev Err := String

/-- Shallow embedding of `idempotency.Record`
(src/pkg/idempotency/idempotency.go): the persisted idempotency record. -/
structure Record where
  id : Int
  requestType : String
  referenceId : Int
  responseData : String
  createdAt : Nat
deriving Repr, DecidableEq

/-- Result of one run of the idempotency gate: the returned value or error,
the list of record-store `Insert` calls performed, and how many times the
wrapped business function `fn` was invoked. -/
structure GateOutcome (V : Type) where
  result : Except Err V
  inserts : List Record
  fnCalls : Nat
deriving Repr, DecidableEq

/-- Shallow embedding of `idempotencyImpl.Execute`
(src/pkg/idempotency/implementation/idempotency.go).

Collaborator effects are passed as values: `get` is the outcome of
`repo.Get(ctx, id)`; `unmarshal` is the composition of `newResult()` with
`json.Unmarshal` into that fresh instance (error, or the filled value);
`fn` is the outcome the business function would produce if invoked;
`marshal` is `json.Marshal`; `insertRes` is the outcome of the single
`repo.Insert` call, would it be made; `now0` stands for `time.Now()`. -/
def idempotencyExecute {V : Type}
    (get : Except Err (Option Record))
    (id : Int) (requestType : String) (referenceId : Int)
    (unmarshal : String → Except Err V)
    (fn : Except Err V)
    (marshal : V → Except Err String)
    (insertRes : Except Err Unit)
    (now0 : Nat) : GateOutcome V :=
  match get with
  | .error e => ⟨.error e, [], 0⟩
  | .ok (some record) =>
    match unmarshal record.responseData with
    | .error e => ⟨.error e, [], 0⟩
    | .ok result => ⟨.ok result, [], 0⟩
  | .ok none =>
    match fn with
    | .error e => ⟨.error e, [], 1⟩
    | .ok result =>
      match marshal result with
      | .error e => ⟨.error e, [], 1⟩
      | .ok data =>
        let newRecord : Record :=
          { id := id, requestType := requestType, referenceId := referenceId
            responseData := data, createdAt := now0 }
        match insertRes with
        | .error e => ⟨.error e, [newRecord], 1⟩
        | .ok _ => ⟨.ok result, [newRecord], 1⟩

/-- Shallow embedding of `model.User` (src/pkg/model/user.go): timestamps
as naturals. -/
structure User where
  id : Int
  email : String
  username : String
  password : String
  createdAt : Nat
  updatedAt : Nat
deriving Repr, DecidableEq

/-- Shallow embedding of `userService.GetUser`
(src/internal/service/user_service.go).  `uowNew` is the outcome of
`uowFactory.New()`; `getRes` the outcome of `uow.UserRepository().Get`
(`.ok none` models gorm not-found with `notFoundAsError = false`, which
yields a nil user and a nil error); `commitRes` / `abortRes` the outcomes
of `uow.Commit` / `uow.Abort`.  The Go code discards the abort result
(`_ = uow.Abort(ctx)`), so `abortRes` does not influence the returned
value. -/
def getUserService (uowNew : Except Err Unit)
    (getRes : Except Err (Option User))
    (commitRes abortRes : Except Err Unit) : Except Err (Option User) :=
  match uowNew with
  | .error e => .error e
  | .ok _ =>
    match getRes with
    | .error e =>
      match abortRes with
      | _ => .error e
    | .ok user =>
      match commitRes with
      | .error e => .error e
      | .ok _ => .ok user

/-- Result of one run of `userService.CreateUser`: the returned value or
error, the final value of the caller's `user` object (mutated in place by
the Go code), and the user-row / idempotency-record insert calls made. -/
structure CreateOutcome where
  result : Except Err (Option User)
  callerUser : User
  userInserts : List User
  recordInserts : List Record
deriving Repr, DecidableEq

/-- Shallow embedding of `userService.CreateUser`
(src/internal/service/user_service.go).

`snowflakeId` is the value of `s.snowflake.Generate()` and `now0` of
`time.Now().UTC()`.  The service overwrites `user.Id`, `user.CreatedAt`
and `user.UpdatedAt` through the caller's pointer before calling the
idempotency gate; `callerUser` in the outcome is the final value of that
shared object.  The gate's result factory is `func() any { return
&model.User{} }` filled by `json.Unmarshal`, modelled by `decode`; the
business function inserts the mutated user (`userInsertRes`) and reads it
back (`userGetBack`, an `Option` since a not-found read-back returns a nil
user without error).  As in `GetUser`, the abort result is discarded. -/
def createUserService (uowNew : Except Err Unit)
    (snowflakeId : Int) (now0 : Nat)
    (user : User) (idempotencyId : Int) (requestTypeCreateUser : String)
    (cacheGet : Except Err (Option Record))
    (decode : String → Except Err User)
    (marshal : Option User → Except Err String)
    (userInsertRes : Except Err Unit)
    (userGetBack : Except Err (Option User))
    (recordInsertRes : Except Err Unit)
    (commitRes abortRes : Except Err Unit) : CreateOutcome :=
  match uowNew with
  | .error e => { result := .error e, callerUser := user
                  userInserts := [], recordInserts := [] }
  | .ok _ =>
    let mutated : User :=
      { user with id := snowflakeId, createdAt := now0, updatedAt := now0 }
    let fnValue : Except Err (Option User) :=
      match userInsertRes with
      | .error e => .error e
      | .ok _ => userGetBack
    let gateOut :=
      idempotencyExecute cacheGet idempotencyId requestTypeCreateUser
        mutated.id (fun s => (decode s).map some) fnValue marshal
        recordInsertRes now0
    let userIns : List User := if gateOut.fnCalls = 0 then [] else [mutated]
    match gateOut.result with
    | .error e =>
      match abortRes with
      | _ => { result := .error e, callerUser := mutated
               userInserts := userIns, recordInserts := gateOut.inserts }
    | .ok v =>
      match commitRes with
      | .error e => { result := .error e, callerUser := mutated
                      userInserts := userIns, recordInserts := gateOut.inserts }
      | .ok _ => { result := .ok v, callerUser := mutated
                   userInserts := userIns, recordInserts := gateOut.inserts }

/-- The retryability test applied by `goRetry.Execute`
(src/pkg/retry/implementation/go_retry.go): an error is treated as
non-retryable exactly when a retryable-predicate was configured and
rejects it (`r.retryableFn != nil && !r.retryableFn(err)`); with no
predicate every error is retryable. -/
def nonRetryable (retryableFn : Option (Err → Bool)) (e : Err) : Bool :=
  match retryableFn with
  | some p => ! p e
  | none => false

/-- Modelled from the spec: the exponential backoff of the third-party
retry engine (sethvargo/go-retry's `NewExponential`, configured by
`NewRetry` with `cfg.Interval`), which is not part of this repository's
source.  The wait before retry `i + 1` is `baseInterval * 2 ^ i`, subject
to an upper bound `cap`. -/
def backoffInterval (base cap i : Nat) : Nat :=
  min (base * 2 ^ i) cap

/-- Modelled from the spec: the retry loop of the third-party engine
(sethvargo/go-retry's `Do` composed with `WithMaxRetries`), not part of
this repository's source, combined with the wrapper logic of
`goRetry.Execute` (src/pkg/retry/implementation/go_retry.go): attempt `i`
always runs; success stops; an error the wrapper deems non-retryable is
returned immediately; otherwise, while retry budget remains, the engine
waits for the backoff interval and re-runs, and when the budget is
exhausted it returns the last observed error.  `fnSeq j` is the error
(`none` for success) produced by invocation `j`; the result is the final
error, the total number of invocations, and the list of waits performed. -/
def retryRun (retryableFn : Option (Err → Bool)) (fnSeq : Nat → Option Err)
    (base cap : Nat) : Nat → Nat → Option Err × Nat × List Nat
  | i, remaining =>
    match fnSeq i with
    | none => (none, i + 1, [])
    | some e =>
      if nonRetryable retryableFn e then (some e, i + 1, [])
      else
        match remaining with
        | 0 => (some e, i + 1, [])
        | r + 1 =>
          let rest := retryRun retryableFn fnSeq base cap (i + 1) r
          (rest.1, rest.2.1, backoffInterval base cap i :: rest.2.2)

/-- Shallow embedding of `NewRetry` followed by one `goRetry.Execute`
call (src/pkg/retry/implementation/go_retry.go): the loop starts at
invocation 0 with a retry budget of `maxRetries`. -/
def goRetryExecute (maxRetries : Nat) (retryableFn : Option (Err → Bool))
    (base cap : Nat) (fnSeq : Nat → Option Err) :
    Option Err × Nat × List Nat :=
  retryRun retryableFn fnSeq base cap 0 maxRetries

/-- Shallow embedding of `circuitbreaker.State`
(src/pkg/circuitbreaker/circuit_breaker.go). -/
inductive CBState where
  | Closed
  | HalfOpen
  | Open
deriving Repr, DecidableEq

/-- Modelled from the spec: the rolling counts of the circuit breaker
(the sony/gobreaker engine behind `gobreakerCircuitBreaker` is not part
of this repository's source): requests, successes, failures and the two
consecutive counters, reset on every state transition. -/
structure Counts where
  requests : Nat
  totalSuccesses : Nat
  totalFailures : Nat
  consecutiveSuccesses : Nat
  consecutiveFailures : Nat
deriving Repr, DecidableEq

/-- Modelled from the spec: the circuit breaker's shared state — current
state, rolling counts, and the instant of the last transition to Open. -/
structure Breaker where
  state : CBState
  counts : Counts
  openedAt : Nat
deriving Repr, DecidableEq

/-- Modelled from the spec: the breaker's configuration — the trip
predicate over the rolling counts, the Open → HalfOpen timeout, and the
consecutive-success threshold that closes a HalfOpen breaker. -/
structure CBSettings where
  readyToTrip : Counts → Bool
  timeout : Nat
  successThreshold : Nat

/-- Counts update after a successful attempt. -/
def onSuccess (c : Counts) : Counts :=
  { requests := c.requests + 1, totalSuccesses := c.totalSuccesses + 1
    totalFailures := c.totalFailures
    consecutiveSuccesses := c.consecutiveSuccesses + 1
    consecutiveFailures := 0 }

/-- Counts update after a failed attempt. -/
def onFailure (c : Counts) : Counts :=
  { requests := c.requests + 1, totalSuccesses := c.totalSuccesses
    totalFailures := c.totalFailures + 1
    consecutiveSuccesses := 0
    consecutiveFailures := c.consecutiveFailures + 1 }

/-- Counts reset on a state transition. -/
def zeroCounts : Counts := ⟨0, 0, 0, 0, 0⟩

/-- The synthesized rejection error of an Open breaker, distinct from any
downstream error by construction of the model's error values. -/
def circuitOpenErr : Err := "circuit breaker is open"

/-- Modelled from the spec: a trial attempt admitted in the HalfOpen
state — success counts toward the close threshold, closing the breaker
when reached; any failure reopens it immediately. -/
def cbTrial {V : Type} (s : CBSettings) (b : Breaker) (now0 : Nat)
    (op : Except Err V) : Except Err V × Breaker × Bool :=
  match op with
  | .ok v =>
    let c := onSuccess b.counts
    if s.successThreshold ≤ c.consecutiveSuccesses then
      (.ok v, { state := .Closed, counts := zeroCounts
                openedAt := b.openedAt }, true)
    else
      (.ok v, { b with counts := c }, true)
  | .error e =>
    (.error e, { state := .Open, counts := zeroCounts, openedAt := now0 },
     true)

/-- Modelled from the spec: one `Execute` step of the circuit breaker
state machine (`gobreakerCircuitBreaker.Execute` delegates to the
third-party sony/gobreaker engine, which is not part of this repository's
source).  `op` is the outcome the wrapped operation would produce if
invoked; the third component records whether it was invoked.  Closed:
invoke and count, tripping to Open when the trip predicate holds on the
updated counts.  Open: before the timeout elapses, reject with the
synthesized circuit-open error without invoking `op`; after the timeout,
transition lazily to HalfOpen and admit a trial.  HalfOpen: admit a
trial. -/
def cbExecute {V : Type} (s : CBSettings) (b : Breaker) (now0 : Nat)
    (op : Except Err V) : Except Err V × Breaker × Bool :=
  match b.state with
  | .Open =>
    if now0 < b.openedAt + s.timeout then
      (.error circuitOpenErr, b, false)
    else
      cbTrial s { b with state := .HalfOpen, counts := zeroCounts } now0 op
  | .HalfOpen => cbTrial s b now0 op
  | .Closed =>
    match op with
    | .ok v => (.ok v, { b with counts := onSuccess b.counts }, true)
    | .error e =>
      let c := onFailure b.counts
      if s.readyToTrip c then
        (.error e, { state := .Open, counts := zeroCounts
                     openedAt := now0 }, true)
      else
        (.error e, { b with counts := c }, true)

/-- A repository instance as built by `NewUserRepository`,
`NewLedgerRepository` and `NewIdempotencyRecordRepository`
(src/internal/repository/*.go): it captures the transaction handle, the
circuit breaker, the retry executor and the `notFoundAsError` flag it was
constructed with.  The handles are modelled as opaque naturals. -/
structure BoundRepo where
  tx : Nat
  cb : Nat
  retryExec : Nat
  notFoundAsError : Bool
deriving Repr, DecidableEq

/-- Shallow embedding of `transactionDbUnitOfWork`
(src/internal/repository, unit-of-work file): the transaction handle, the
shared circuit breaker and retry executor, and the three lazily
constructed repositories (`sync.Once` + field, modelled as `Option`). -/
structure TransactionDbUnitOfWork where
  tx : Nat
  cb : Nat
  retryExec : Nat
  userRepository : Option BoundRepo
  ledgerRepository : Option BoundRepo
  idempotencyRecordRepository : Option BoundRepo
deriving Repr, DecidableEq

/-- Shallow embedding of `transactionDbUnitOfWorkFactory.New`
(src/internal/repository/unit_of_work_factory.go): `db.Begin()` either
fails, in which case no unit of work is created, or yields a transaction
handle to which the new unit of work is bound, with no repository
constructed yet. -/
def transactionDbUnitOfWorkFactoryNew (beginRes : Except Err Nat)
    (cb retryExec : Nat) : Except Err TransactionDbUnitOfWork :=
  match beginRes with
  | .error e => .error e
  | .ok tx => .ok ⟨tx, cb, retryExec, none, none, none⟩

/-- Shallow embedding of `transactionDbUnitOfWork.UserRepository`: on
first use, construct the repository bound to the unit of work's
transaction, breaker and retry executor (with `notFoundAsError = false`)
and memoize it; afterwards return the memoized instance. -/
def userRepositoryCall (u : TransactionDbUnitOfWork) :
    BoundRepo × TransactionDbUnitOfWork :=
  match u.userRepository with
  | some r => (r, u)
  | none =>
    let r : BoundRepo := ⟨u.tx, u.cb, u.retryExec, false⟩
    (r, { u with userRepository := some r })

/-- Shallow embedding of `transactionDbUnitOfWork.LedgerRepository`,
memoized like `UserRepository`. -/
def ledgerRepositoryCall (u : TransactionDbUnitOfWork) :
    BoundRepo × TransactionDbUnitOfWork :=
  match u.ledgerRepository with
  | some r => (r, u)
  | none =>
    let r : BoundRepo := ⟨u.tx, u.cb, u.retryExec, false⟩
    (r, { u with ledgerRepository := some r })

/-- Shallow embedding of
`transactionDbUnitOfWork.IdempotencyRecordRepository`, memoized like
`UserRepository`. -/
def idempotencyRecordRepositoryCall (u : TransactionDbUnitOfWork) :
    BoundRepo × TransactionDbUnitOfWork :=
  match u.idempotencyRecordRepository with
  | some r => (r, u)
  | none =>
    let r : BoundRepo := ⟨u.tx, u.cb, u.retryExec, false⟩
    (r, { u with idempotencyRecordRepository := some r })

/-- C1: when `recordStore.Get(id)` returns an existing record without error,
`Execute` never invokes `fn`, performs no insert, and returns the value
obtained by deserializing the record's `responseData` into the fresh
instance produced by the result factory — for every `fn` whatsoever. -/
theorem gate_cacheHit_returns_cached {V : Type}
    (record : Record) (unmarshal : String → Except Err V)
    (id referenceId : Int) (requestType : String) (now0 : Nat)
    (v : V) (hunm : unmarshal record.responseData = .ok v) :
    ∀ (fn : Except Err V) (marshal : V → Except Err String)
      (insertRes : Except Err Unit),
      idempotencyExecute (.ok (some record)) id requestType referenceId
        unmarshal fn marshal insertRes now0 = ⟨.ok v, [], 0⟩ := by
  intro fn marshal insertRes
  simp [idempotencyExecute, hunm]

theorem gate_cacheHit_returns_cached_witness :
    (fun s => if s = "cached" then (.ok 7 : Except Err Nat) else .error "bad") "cached" = .ok 7
    ∧ ∀ (fn : Except Err Nat) (marshal : Nat → Except Err String)
        (insertRes : Except Err Unit),
        idempotencyExecute (.ok (some ⟨100, "create_user", 200, "cached", 5⟩))
          100 "create_user" 200
          (fun s => if s = "cached" then .ok 7 else .error "bad")
          fn marshal insertRes 5 = ⟨.ok 7, [], 0⟩ :=
  ⟨by decide,
   gate_cacheHit_returns_cached ⟨100, "create_user", 200, "cached", 5⟩
     (fun s => if s = "cached" then .ok 7 else .error "bad")
     100 200 "create_user" 5 7 (by decide)⟩

/-- C7: when a record exists for `id` but its `responseData` fails to
deserialize into the instance produced by the result factory, `Execute`
returns that deserialization error, performs no insert, and never invokes
`fn`: a corrupt cache entry is a hard failure, not a cache miss. -/
theorem gate_corruptCache_hard_failure {V : Type}
    (record : Record) (unmarshal : String → Except Err V)
    (id referenceId : Int) (requestType : String) (now0 : Nat)
    (e : Err) (hunm : unmarshal record.responseData = .error e) :
    ∀ (fn : Except Err V) (marshal : V → Except Err String)
      (insertRes : Except Err Unit),
      idempotencyExecute (.ok (some record)) id requestType referenceId
        unmarshal fn marshal insertRes now0 = ⟨.error e, [], 0⟩ := by
  intro fn marshal insertRes
  simp [idempotencyExecute, hunm]

theorem gate_corruptCache_hard_failure_witness :
    (fun (_ : String) => (.error "corrupt" : Except Err Nat)) "junk" = .error "corrupt"
    ∧ ∀ (fn : Except Err Nat) (marshal : Nat → Except Err String)
        (insertRes : Except Err Unit),
        idempotencyExecute (.ok (some ⟨100, "create_user", 200, "junk", 5⟩))
          100 "create_user" 200 (fun _ => .error "corrupt")
          fn marshal insertRes 5 = ⟨.error "corrupt", [], 0⟩ :=
  ⟨rfl,
   gate_corruptCache_hard_failure ⟨100, "create_user", 200, "junk", 5⟩
     (fun _ => .error "corrupt") 100 200 "create_user" 5 "corrupt" rfl⟩

/-- C2: when no record exists for `id` and `fn()` returns an error,
`Execute` propagates that exact error and performs no insert, and a later
call with the same id (still no record) invokes `fn` again (exactly once). -/
theorem gate_fnError_no_insert_retry_reinvokes {V : Type}
    (unmarshal : String → Except Err V)
    (id referenceId : Int) (requestType : String) (now0 : Nat)
    (e : Err) (marshal : V → Except Err String) (insertRes : Except Err Unit) :
    idempotencyExecute (.ok none) id requestType referenceId
      unmarshal (.error e) marshal insertRes now0 = ⟨.error e, [], 1⟩
    ∧ ∀ (fn2 : Except Err V) (marshal2 : V → Except Err String)
        (insertRes2 : Except Err Unit) (now2 : Nat),
        (idempotencyExecute (.ok none) id requestType referenceId
          unmarshal fn2 marshal2 insertRes2 now2).fnCalls = 1 := by
  constructor
  · simp [idempotencyExecute]
  · intro fn2 marshal2 insertRes2 now2
    rcases fn2 with e2 | v2
    · simp [idempotencyExecute]
    · rcases h : marshal2 v2 with e3 | d
      · simp [idempotencyExecute, h]
      · rcases insertRes2 with e4 | u
        · simp [idempotencyExecute, h]
        · simp [idempotencyExecute, h]

/-- C3: when no record exists for `id`, `fn()` succeeds with `r`, and
serialization of `r` succeeds with `data`, `Execute` performs exactly one
insert, of the record `{id, requestType, referenceId, responseData := data,
createdAt := now}`, and returns the original `r` when the insert succeeds;
when the insert fails, its error is propagated and no result is returned. -/
theorem gate_miss_success_inserts_once {V : Type}
    (unmarshal : String → Except Err V)
    (id referenceId : Int) (requestType : String) (now0 : Nat)
    (r : V) (marshal : V → Except Err String) (data : String)
    (hmar : marshal r = .ok data) (insertRes : Except Err Unit) :
    (idempotencyExecute (.ok none) id requestType referenceId
        unmarshal (.ok r) marshal insertRes now0).inserts =
      [{ id := id, requestType := requestType, referenceId := referenceId
         responseData := data, createdAt := now0 }]
    ∧ (idempotencyExecute (.ok none) id requestType referenceId
        unmarshal (.ok r) marshal insertRes now0).fnCalls = 1
    ∧ (insertRes = .ok () →
        (idempotencyExecute (.ok none) id requestType referenceId
          unmarshal (.ok r) marshal insertRes now0).result = .ok r)
    ∧ ∀ e, insertRes = .error e →
        (idempotencyExecute (.ok none) id requestType referenceId
          unmarshal (.ok r) marshal insertRes now0).result = .error e := by
  rcases insertRes with e4 | u
  · simp [idempotencyExecute, hmar]
  · simp [idempotencyExecute, hmar]

theorem gate_miss_success_inserts_once_witness :
    (fun (n : Nat) => (.ok (toString n) : Except Err String)) 42 = .ok "42"
    ∧ ((idempotencyExecute (V := Nat) (.ok none) 100 "create_user" 200
          (fun _ => .error "no cache") (.ok 42) (fun n => .ok (toString n))
          (.ok ()) 5).inserts = [⟨100, "create_user", 200, "42", 5⟩]
       ∧ (idempotencyExecute (V := Nat) (.ok none) 100 "create_user" 200
          (fun _ => .error "no cache") (.ok 42) (fun n => .ok (toString n))
          (.ok ()) 5).fnCalls = 1
       ∧ ((.ok () : Except Err Unit) = .ok () →
          (idempotencyExecute (V := Nat) (.ok none) 100 "create_user" 200
            (fun _ => .error "no cache") (.ok 42) (fun n => .ok (toString n))
            (.ok ()) 5).result = .ok 42)
       ∧ ∀ e, (.ok () : Except Err Unit) = .error e →
          (idempotencyExecute (V := Nat) (.ok none) 100 "create_user" 200
            (fun _ => .error "no cache") (.ok 42) (fun n => .ok (toString n))
            (.ok ()) 5).result = .error e) :=
  ⟨rfl,
   gate_miss_success_inserts_once (fun _ => .error "no cache") 100 200
     "create_user" 5 42 (fun n => .ok (toString n)) "42" rfl (.ok ())⟩

/-- C4 counterexample: in `GetUser`, when the repository read fails and the
subsequent `Abort` also fails, the abort (finalization) error is NOT
surfaced to the caller — the Go code discards it (`_ = uow.Abort(ctx)`)
and returns the read error instead. -/
theorem service_abortError_not_surfaced_cex :
    getUserService (.ok ()) (.error "user row fetch failed") (.ok ())
      (.error "rollback failed") = .error "user row fetch failed"
    ∧ (.error "user row fetch failed" : Except Err (Option User))
        ≠ .error "rollback failed" :=
  ⟨rfl, by decide⟩

/-- C4 (amended): commit errors are always surfaced to the service caller,
even when the logical operation succeeded; abort errors are discarded —
the abort outcome never influences the returned value — but `Abort` is
invoked only on paths already returning the operation's own error, which
is surfaced.  Stated for both `GetUser` and `CreateUser`. -/
theorem service_finalization_errors_amended
    (u : Option User) (oe ce : Err) (cr ab ab1 ab2 : Except Err Unit)
    (sid : Int) (now0 : Nat) (user : User) (iid : Int) (rt : String)
    (decode : String → Except Err User)
    (marshal : Option User → Except Err String)
    (gu : Option User) (data : String) (hmar : marshal gu = .ok data)
    (uir : Except Err Unit) (ugb : Except Err (Option User))
    (rir : Except Err Unit) :
    getUserService (.ok ()) (.ok u) (.error ce) ab = .error ce
    ∧ getUserService (.ok ()) (.error oe) cr ab = .error oe
    ∧ (∀ n g c, getUserService n g c ab1 = getUserService n g c ab2)
    ∧ (createUserService (.ok ()) sid now0 user iid rt (.ok none) decode
        marshal (.ok ()) (.ok gu) (.ok ()) (.error ce) ab).result = .error ce
    ∧ (createUserService (.ok ()) sid now0 user iid rt (.error oe) decode
        marshal uir ugb rir cr ab).result = .error oe
    ∧ ∀ n2 cg2 uir2 ugb2 rir2 cr2,
        createUserService n2 sid now0 user iid rt cg2 decode marshal uir2
          ugb2 rir2 cr2 ab1
        = createUserService n2 sid now0 user iid rt cg2 decode marshal uir2
            ugb2 rir2 cr2 ab2 := by
  refine ⟨rfl, rfl, ?_, ?_, ?_, ?_⟩
  · intro n g c
    rcases n with e | un
    · rfl
    · rcases g with e | gv
      · rfl
      · rfl
  · simp [createUserService, idempotencyExecute, hmar]
  · simp [createUserService, idempotencyExecute]
  · intro n2 cg2 uir2 ugb2 rir2 cr2
    rcases n2 with e | un
    · rfl
    · simp only [createUserService]

theorem service_finalization_errors_amended_witness :
    (fun (_ : Option User) => (.ok "payload" : Except Err String)) none = .ok "payload"
    ∧ (getUserService (.ok ()) (.ok none) (.error "commit failed") (.ok ())
          = .error "commit failed"
       ∧ getUserService (.ok ()) (.error "op failed") (.ok ()) (.ok ())
          = .error "op failed"
       ∧ (∀ n g c, getUserService n g c (.ok ())
            = getUserService n g c (.error "rollback failed"))
       ∧ (createUserService (.ok ()) 7 5 ⟨0, "e", "u", "p", 0, 0⟩ 100
            "create_user" (.ok none) (fun _ => .error "bad")
            (fun _ => .ok "payload") (.ok ()) (.ok none) (.ok ())
            (.error "commit failed") (.ok ())).result = .error "commit failed"
       ∧ (createUserService (.ok ()) 7 5 ⟨0, "e", "u", "p", 0, 0⟩ 100
            "create_user" (.error "op failed") (fun _ => .error "bad")
            (fun _ => .ok "payload") (.ok ()) (.ok none) (.ok ())
            (.ok ()) (.ok ())).result = .error "op failed"
       ∧ ∀ n2 cg2 uir2 ugb2 rir2 cr2,
           createUserService n2 7 5 ⟨0, "e", "u", "p", 0, 0⟩ 100
             "create_user" cg2 (fun _ => .error "bad")
             (fun _ => .ok "payload") uir2 ugb2 rir2 cr2 (.ok ())
           = createUserService n2 7 5 ⟨0, "e", "u", "p", 0, 0⟩ 100
               "create_user" cg2 (fun _ => .error "bad")
               (fun _ => .ok "payload") uir2 ugb2 rir2 cr2
               (.error "rollback failed")) :=
  ⟨rfl,
   service_finalization_errors_amended none "op failed" "commit failed"
     (.ok ()) (.ok ()) (.ok ()) (.error "rollback failed") 7 5
     ⟨0, "e", "u", "p", 0, 0⟩ 100 "create_user" (fun _ => .error "bad")
     (fun _ => .ok "payload") none "payload" rfl (.ok ()) (.ok none)
     (.ok ())⟩

/-- C10: `CreateUser` overwrites the input user's id with the freshly
generated snowflake id and sets `CreatedAt`/`UpdatedAt` to the current
time before consulting the idempotency cache; on a cache hit the caller's
input object has been so mutated even though no user row and no
idempotency record were inserted, and the returned value is the
deserialized cached user — independent of the (mutated) input object. -/
theorem createUser_cacheHit_mutates_input
    (sid : Int) (now0 : Nat) (user : User) (iid : Int) (rt : String)
    (record : Record) (decode : String → Except Err User)
    (marshal : Option User → Except Err String)
    (uir : Except Err Unit) (ugb : Except Err (Option User))
    (rir : Except Err Unit) (cr ab : Except Err Unit)
    (cached : User) (hdec : decode record.responseData = .ok cached) :
    (createUserService (.ok ()) sid now0 user iid rt (.ok (some record))
        decode marshal uir ugb rir cr ab).callerUser =
      { user with id := sid, createdAt := now0, updatedAt := now0 }
    ∧ (createUserService (.ok ()) sid now0 user iid rt (.ok (some record))
        decode marshal uir ugb rir cr ab).userInserts = []
    ∧ (createUserService (.ok ()) sid now0 user iid rt (.ok (some record))
        decode marshal uir ugb rir cr ab).recordInserts = []
    ∧ (cr = .ok () →
        (createUserService (.ok ()) sid now0 user iid rt (.ok (some record))
          decode marshal uir ugb rir cr ab).result = .ok (some cached))
    ∧ ∀ user2 : User,
        (createUserService (.ok ()) sid now0 user2 iid rt (.ok (some record))
          decode marshal uir ugb rir cr ab).result
        = (createUserService (.ok ()) sid now0 user iid rt (.ok (some record))
            decode marshal uir ugb rir cr ab).result := by
  rcases cr with ce | cu
  · simp [createUserService, idempotencyExecute, hdec, Except.map]
  · simp [createUserService, idempotencyExecute, hdec, Except.map]

theorem createUser_cacheHit_mutates_input_witness :
    (fun s => if s = "cached" then (.ok (⟨9, "a", "b", "c", 1, 2⟩ : User))
              else (.error "bad" : Except Err User)) "cached"
        = .ok (⟨9, "a", "b", "c", 1, 2⟩ : User)
    ∧ ((createUserService (.ok ()) 7 5 ⟨0, "e", "u", "p", 0, 0⟩ 100
          "create_user" (.ok (some ⟨100, "create_user", 9, "cached", 3⟩))
          (fun s => if s = "cached" then .ok ⟨9, "a", "b", "c", 1, 2⟩
                    else .error "bad")
          (fun _ => .ok "payload") (.ok ()) (.ok none) (.ok ()) (.ok ())
          (.ok ())).callerUser = ⟨7, "e", "u", "p", 5, 5⟩
       ∧ (createUserService (.ok ()) 7 5 ⟨0, "e", "u", "p", 0, 0⟩ 100
          "create_user" (.ok (some ⟨100, "create_user", 9, "cached", 3⟩))
          (fun s => if s = "cached" then .ok ⟨9, "a", "b", "c", 1, 2⟩
                    else .error "bad")
          (fun _ => .ok "payload") (.ok ()) (.ok none) (.ok ()) (.ok ())
          (.ok ())).userInserts = []
       ∧ (createUserService (.ok ()) 7 5 ⟨0, "e", "u", "p", 0, 0⟩ 100
          "create_user" (.ok (some ⟨100, "create_user", 9, "cached", 3⟩))
          (fun s => if s = "cached" then .ok ⟨9, "a", "b", "c", 1, 2⟩
                    else .error "bad")
          (fun _ => .ok "payload") (.ok ()) (.ok none) (.ok ()) (.ok ())
          (.ok ())).recordInserts = []
       ∧ ((.ok () : Except Err Unit) = .ok () →
          (createUserService (.ok ()) 7 5 ⟨0, "e", "u", "p", 0, 0⟩ 100
            "create_user" (.ok (some ⟨100, "create_user", 9, "cached", 3⟩))
            (fun s => if s = "cached" then .ok ⟨9, "a", "b", "c", 1, 2⟩
                      else .error "bad")
            (fun _ => .ok "payload") (.ok ()) (.ok none) (.ok ()) (.ok ())
            (.ok ())).result = .ok (some ⟨9, "a", "b", "c", 1, 2⟩))
       ∧ ∀ user2 : User,
          (createUserService (.ok ()) 7 5 user2 100
            "create_user" (.ok (some ⟨100, "create_user", 9, "cached", 3⟩))
            (fun s => if s = "cached" then .ok ⟨9, "a", "b", "c", 1, 2⟩
                      else .error "bad")
            (fun _ => .ok "payload") (.ok ()) (.ok none) (.ok ()) (.ok ())
            (.ok ())).result
          = (createUserService (.ok ()) 7 5 ⟨0, "e", "u", "p", 0, 0⟩ 100
              "create_user" (.ok (some ⟨100, "create_user", 9, "cached", 3⟩))
              (fun s => if s = "cached" then .ok ⟨9, "a", "b", "c", 1, 2⟩
                        else .error "bad")
              (fun _ => .ok "payload") (.ok ()) (.ok none) (.ok ()) (.ok ())
              (.ok ())).result) :=
  ⟨by decide,
   createUser_cacheHit_mutates_input 7 5 ⟨0, "e", "u", "p", 0, 0⟩ 100
     "create_user" ⟨100, "create_user", 9, "cached", 3⟩
     (fun s => if s = "cached" then .ok ⟨9, "a", "b", "c", 1, 2⟩
               else .error "bad")
     (fun _ => .ok "payload") (.ok ()) (.ok none) (.ok ()) (.ok ()) (.ok ())
     ⟨9, "a", "b", "c", 1, 2⟩ (by decide)⟩

lemma map_range_succ_shift (b : Nat → Nat) (i K : Nat) :
    (List.range (K + 1)).map (fun j => b (i + j))
      = b i :: (List.range K).map (fun j => b (i + 1 + j)) := by
  rw [List.range_succ_eq_map, List.map_cons, List.map_map]
  simp only [Nat.add_zero]
  congr 1
  congr 1
  funext j
  simp only [Function.comp_apply]
  congr 1
  omega

lemma retryRun_succeeds_after (retryableFn : Option (Err → Bool))
    (fnSeq : Nat → Option Err) (base cap : Nat) :
    ∀ (K i remaining : Nat), K ≤ remaining →
      (∀ j, j < K → ∃ e, fnSeq (i + j) = some e ∧
        nonRetryable retryableFn e = false) →
      fnSeq (i + K) = none →
      retryRun retryableFn fnSeq base cap i remaining =
        (none, i + K + 1,
         (List.range K).map (fun j => backoffInterval base cap (i + j))) := by
  intro K
  induction K with
  | zero =>
    intro i remaining _ _ hK
    rw [Nat.add_zero] at hK
    simp [retryRun, hK]
  | succ K ih =>
    intro i remaining hle hfail hK
    obtain ⟨e, he, hnr⟩ := hfail 0 (Nat.succ_pos K)
    rw [Nat.add_zero] at he
    rcases remaining with _ | r
    · omega
    · have hle' : K ≤ r := Nat.succ_le_succ_iff.mp hle
      have hfail' : ∀ j, j < K → ∃ e, fnSeq (i + 1 + j) = some e ∧
          nonRetryable retryableFn e = false := by
        intro j hj
        obtain ⟨e', he', hnr'⟩ := hfail (j + 1) (Nat.succ_lt_succ hj)
        refine ⟨e', ?_, hnr'⟩
        rwa [show i + (j + 1) = i + 1 + j by omega] at he'
      have hK' : fnSeq (i + 1 + K) = none := by
        rwa [show i + (K + 1) = i + 1 + K by omega] at hK
      have hrest := ih (i + 1) r hle' hfail' hK'
      rw [map_range_succ_shift]
      simp only [retryRun, he, hnr, Bool.false_eq_true, if_false, hrest]
      refine congrArg₂ Prod.mk rfl (congrArg₂ Prod.mk ?_ rfl)
      omega

lemma retryRun_exhausts (retryableFn : Option (Err → Bool))
    (fnSeq : Nat → Option Err) (base cap : Nat) (es : Nat → Err) :
    ∀ (remaining i : Nat),
      (∀ j, j ≤ remaining → fnSeq (i + j) = some (es (i + j)) ∧
        nonRetryable retryableFn (es (i + j)) = false) →
      retryRun retryableFn fnSeq base cap i remaining =
        (some (es (i + remaining)), i + remaining + 1,
         (List.range remaining).map (fun j => backoffInterval base cap (i + j))) := by
  intro remaining
  induction remaining with
  | zero =>
    intro i h
    obtain ⟨he, hnr⟩ := h 0 (Nat.le_refl 0)
    rw [Nat.add_zero] at he hnr
    simp [retryRun, he, hnr]
  | succ r ih =>
    intro i h
    obtain ⟨he, hnr⟩ := h 0 (Nat.zero_le _)
    rw [Nat.add_zero] at he hnr
    have h' : ∀ j, j ≤ r → fnSeq (i + 1 + j) = some (es (i + 1 + j)) ∧
        nonRetryable retryableFn (es (i + 1 + j)) = false := by
      intro j hj
      have := h (j + 1) (Nat.succ_le_succ hj)
      rwa [show i + (j + 1) = i + 1 + j by omega] at this
    have hrest := ih (i + 1) h'
    rw [map_range_succ_shift]
    simp only [retryRun, he, hnr, Bool.false_eq_true, if_false, hrest]
    refine congrArg₂ Prod.mk ?_ (congrArg₂ Prod.mk ?_ rfl)
    · refine congrArg (fun n => some (es n)) ?_
      omega
    · omega

/-- C5: when the operation fails with retryable errors on its first K
invocations and then succeeds, with K ≤ maxRetries, `Execute` returns nil
after exactly K + 1 invocations; and when every invocation fails with a
retryable error, `Execute` performs exactly 1 + maxRetries invocations and
returns the last observed error. -/
theorem retryExecutor_invocation_counts
    (maxRetries : Nat) (retryableFn : Option (Err → Bool))
    (base cap : Nat) (fnSeq : Nat → Option Err) (K : Nat) (es : Nat → Err) :
    (K ≤ maxRetries →
      (∀ j, j < K → ∃ e, fnSeq j = some e ∧
        nonRetryable retryableFn e = false) →
      fnSeq K = none →
      (goRetryExecute maxRetries retryableFn base cap fnSeq).1 = none
      ∧ (goRetryExecute maxRetries retryableFn base cap fnSeq).2.1 = K + 1)
    ∧ ((∀ j, j ≤ maxRetries → fnSeq j = some (es j) ∧
        nonRetryable retryableFn (es j) = false) →
      (goRetryExecute maxRetries retryableFn base cap fnSeq).1
        = some (es maxRetries)
      ∧ (goRetryExecute maxRetries retryableFn base cap fnSeq).2.1
        = maxRetries + 1) := by
  constructor
  · intro hle hfail hK
    have := retryRun_succeeds_after retryableFn fnSeq base cap K 0 maxRetries
      hle (by simpa using hfail) (by simpa using hK)
    simp [goRetryExecute, this]
  · intro h
    have := retryRun_exhausts retryableFn fnSeq base cap es maxRetries 0
      (by simpa using h)
    simp [goRetryExecute, this]

theorem retryExecutor_invocation_counts_witness :
    ((goRetryExecute 3 (some (fun _ => true)) 1 1000
        (fun j => if j < 2 then some "transient" else none)).1 = none
     ∧ (goRetryExecute 3 (some (fun _ => true)) 1 1000
        (fun j => if j < 2 then some "transient" else none)).2.1 = 2 + 1)
    ∧ ((goRetryExecute 2 (some (fun _ => true)) 1 1000
        (fun _ => some "persistent")).1 = some "persistent"
     ∧ (goRetryExecute 2 (some (fun _ => true)) 1 1000
        (fun _ => some "persistent")).2.1 = 2 + 1) :=
  ⟨(retryExecutor_invocation_counts 3 (some (fun _ => true)) 1 1000
      (fun j => if j < 2 then some "transient" else none) 2
      (fun _ => "persistent")).1
    (by omega)
    (fun j hj => ⟨"transient", by simp [hj], rfl⟩)
    (by decide),
   (retryExecutor_invocation_counts 2 (some (fun _ => true)) 1 1000
      (fun _ => some "persistent") 0 (fun _ => "persistent")).2
    (fun j _ => ⟨rfl, rfl⟩)⟩

/-- C6: for every retried attempt, the wait between attempt i and attempt
i + 1 is the exponentially increasing interval baseInterval * 2 ^ i,
subject to the upper bound: in a run with K retryable failures followed by
success, the recorded waits are exactly min (base * 2 ^ i) cap for
i = 0, …, K - 1, in order. -/
theorem retryExecutor_backoff_intervals
    (maxRetries : Nat) (retryableFn : Option (Err → Bool))
    (base cap : Nat) (fnSeq : Nat → Option Err) (K : Nat)
    (hle : K ≤ maxRetries)
    (hfail : ∀ j, j < K → ∃ e, fnSeq j = some e ∧
      nonRetryable retryableFn e = false)
    (hsucc : fnSeq K = none) :
    (goRetryExecute maxRetries retryableFn base cap fnSeq).2.2
      = (List.range K).map (fun i => min (base * 2 ^ i) cap) := by
  have := retryRun_succeeds_after retryableFn fnSeq base cap K 0 maxRetries
    hle (by simpa using hfail) (by simpa using hsucc)
  simp [goRetryExecute, this, backoffInterval]

theorem retryExecutor_backoff_intervals_witness :
    (goRetryExecute 5 (some (fun _ => true)) 3 50
      (fun j => if j < 4 then some "transient" else none)).2.2
      = [3, 6, 12, 24] :=
  Trans.trans
    (retryExecutor_backoff_intervals 5 (some (fun _ => true)) 3 50
      (fun j => if j < 4 then some "transient" else none) 4
      (by omega)
      (fun j hj => ⟨"transient", by simp [hj], rfl⟩)
      (by decide))
    (by decide)

/-- C8: while the breaker is Open and the open-timeout has not elapsed,
every `Execute` call fails with the synthesized circuit-open error, never
invokes the wrapped operation, and leaves the breaker unchanged. -/
theorem circuitBreaker_open_rejects {V : Type}
    (s : CBSettings) (b : Breaker) (now0 : Nat) (op : Except Err V)
    (hOpen : b.state = .Open) (hT : now0 < b.openedAt + s.timeout) :
    (cbExecute s b now0 op).1 = .error circuitOpenErr
    ∧ (cbExecute s b now0 op).2.2 = false
    ∧ (cbExecute s b now0 op).2.1 = b := by
  refine ⟨?_, ?_, ?_⟩ <;> simp [cbExecute, hOpen, hT]

theorem circuitBreaker_open_rejects_witness :
    (⟨CBState.Open, zeroCounts, 5⟩ : Breaker).state = CBState.Open
    ∧ (7 : Nat) < (⟨CBState.Open, zeroCounts, 5⟩ : Breaker).openedAt + 10
    ∧ ((cbExecute ⟨fun c => 3 ≤ c.consecutiveFailures, 10, 1⟩
          ⟨CBState.Open, zeroCounts, 5⟩ 7 (.ok 42)).1
        = .error circuitOpenErr
       ∧ (cbExecute ⟨fun c => 3 ≤ c.consecutiveFailures, 10, 1⟩
          ⟨CBState.Open, zeroCounts, 5⟩ 7 (.ok (42 : Nat))).2.2 = false
       ∧ (cbExecute ⟨fun c => 3 ≤ c.consecutiveFailures, 10, 1⟩
          ⟨CBState.Open, zeroCounts, 5⟩ 7 (.ok 42)).2.1
        = ⟨CBState.Open, zeroCounts, 5⟩) :=
  ⟨rfl, by decide,
   circuitBreaker_open_rejects ⟨fun c => 3 ≤ c.consecutiveFailures, 10, 1⟩
     ⟨CBState.Open, zeroCounts, 5⟩ 7 (.ok 42) rfl (by decide)⟩

/-- C9: a factory-created unit of work starts with no repository
constructed; the first call to each repository accessor constructs the
repository bound to that unit of work's transaction handle, circuit
breaker and retry executor (with `notFoundAsError = false`), and on every
unit of work a repeated accessor call returns the identical instance the
previous call returned and leaves the unit of work unchanged, so each
repository is constructed at most once. -/
theorem unitOfWork_repositories_memoized (beginTx cb0 retry0 : Nat)
    (u : TransactionDbUnitOfWork) :
    transactionDbUnitOfWorkFactoryNew (.ok beginTx) cb0 retry0
        = .ok ⟨beginTx, cb0, retry0, none, none, none⟩
    ∧ (userRepositoryCall ⟨beginTx, cb0, retry0, none, none, none⟩).1
        = ⟨beginTx, cb0, retry0, false⟩
    ∧ (ledgerRepositoryCall ⟨beginTx, cb0, retry0, none, none, none⟩).1
        = ⟨beginTx, cb0, retry0, false⟩
    ∧ (idempotencyRecordRepositoryCall
          ⟨beginTx, cb0, retry0, none, none, none⟩).1
        = ⟨beginTx, cb0, retry0, false⟩
    ∧ (userRepositoryCall (userRepositoryCall u).2).1
        = (userRepositoryCall u).1
    ∧ (userRepositoryCall (userRepositoryCall u).2).2
        = (userRepositoryCall u).2
    ∧ (ledgerRepositoryCall (ledgerRepositoryCall u).2).1
        = (ledgerRepositoryCall u).1
    ∧ (ledgerRepositoryCall (ledgerRepositoryCall u).2).2
        = (ledgerRepositoryCall u).2
    ∧ (idempotencyRecordRepositoryCall
          (idempotencyRecordRepositoryCall u).2).1
        = (idempotencyRecordRepositoryCall u).1
    ∧ (idempotencyRecordRepositoryCall
          (idempotencyRecordRepositoryCall u).2).2
        = (idempotencyRecordRepositoryCall u).2 := by
  refine ⟨rfl, rfl, rfl, rfl, ?_, ?_, ?_, ?_, ?_, ?_⟩
  · rcases h : u.userRepository with _ | r <;>
      simp [userRepositoryCall, h]
  · rcases h : u.userRepository with _ | r <;>
      simp [userRepositoryCall, h]
  · rcases h : u.ledgerRepository with _ | r <;>
      simp [ledgerRepositoryCall, h]
  · rcases h : u.ledgerRepository with _ | r <;>
      simp [ledgerRepositoryCall, h]
  · rcases h : u.idempotencyRecordRepository with _ | r <;>
      simp [idempotencyRecordRepositoryCall, h]
  · rcases h : u.idempotencyRecordRepository with _ | r <;>
      simp [idempotencyRecordRepositoryCall, h]

end GrpcTemplate
